import Mathlib

/-!
Verification development for the static-analysis core of the
AI-Powered Code Reviewer repository: the AST-based per-file extractor
(`core/parser/python_parser.py`), the PEP 257 convention validator
(`core/validator/validator.py`) and the coverage aggregator
(`core/reporter/coverage_reporter.py`).

Python strings are modelled as Lean `String`; Python `str` methods are
re-implemented below over `String.data` (`List Char`).  The CPython `ast`
module is external to the repository, so parsed source is modelled by an
explicit syntax-tree type (`PyStmt`/`PyExpr`) and the outcome of
`ast.parse` by `ParseOutcome`; every repository function that walks the
tree is translated statement-for-statement from the source.
-/

/-- Characters treated as whitespace by Python's `str.strip()` family. -/
def isPySpaceChar (c : Char) : Bool :=
  c = ' ' || c = '\t' || c = '\n' || c = '\r' || c = '\x0b' || c = '\x0c'

/-- Python `str.lstrip` over a character list: drop leading characters satisfying `p`. -/
def lstripByChars (p : Char → Bool) (l : List Char) : List Char :=
  l.dropWhile p

/-- Python `str.rstrip` over a character list: drop trailing characters satisfying `p`. -/
def rstripByChars (p : Char → Bool) (l : List Char) : List Char :=
  (l.reverse.dropWhile p).reverse

/-- Python `str.strip` over a character list: drop from both ends. -/
def stripByChars (p : Char → Bool) (l : List Char) : List Char :=
  rstripByChars p (lstripByChars p l)

/-- Python `s.strip()` (no argument: strip whitespace). -/
def pyStrip (s : String) : String :=
  ⟨stripByChars isPySpaceChar s.data⟩

/-- Python `s.lstrip()`. -/
def pyLstrip (s : String) : String :=
  ⟨lstripByChars isPySpaceChar s.data⟩

/-- Python `s.rstrip()`. -/
def pyRstrip (s : String) : String :=
  ⟨rstripByChars isPySpaceChar s.data⟩

/-- Python `s.strip(chars)`: strip any character of the set `cs` from both ends
(`'\x22\x22\x22'.strip` strips the quote character, etc.). -/
def pyStripChars (cs : List Char) (s : String) : String :=
  ⟨stripByChars (fun c => cs.contains c) s.data⟩

/-- Python `s.startswith(pre)`. -/
def pyStartsWith (s pre : String) : Bool :=
  pre.data.isPrefixOf s.data

/-- Python `s.endswith(suf)`. -/
def pyEndsWith (s suf : String) : Bool :=
  suf.data.isSuffixOf s.data

/-- Python `c in s` for a single character `c`. -/
def pyContainsChar (s : String) (c : Char) : Bool :=
  s.data.contains c

/-- Splitting a character list at every occurrence of `sep`, Python
`str.split(sep)` semantics: the empty list yields one empty field, and a
trailing separator yields a trailing empty field. -/
def splitOnChar (sep : Char) : List Char → List (List Char)
  | [] => [[]]
  | c :: cs =>
    if c = sep then [] :: splitOnChar sep cs
    else
      match splitOnChar sep cs with
      | [] => [[c]]
      | l :: ls => (c :: l) :: ls

/-- Python `s.split(sep)` for a one-character separator. -/
def pySplit (s : String) (sep : Char) : List String :=
  (splitOnChar sep s.data).map (fun l => ⟨l⟩)

/-- Truthiness of an optional Python string (`None` and `""` are falsy). -/
def optStrTruthy : Option String → Bool
  | none => false
  | some s => !s.data.isEmpty

/-- Literal constants appearing in the modelled syntax trees (`ast.Constant`). -/
inductive PyConst where
  | str (s : String)
  | int (n : Int)
  | bool (b : Bool)
  | noneConst

/-- Expression nodes of the modelled syntax tree.  `boolOp` carries
whether the operator is `and` (`true`) or `or` (`false`); binary and
comparison operators carry their surface symbol, which only feeds the
stringifier. -/
inductive PyExpr where
  | constant (c : PyConst)
  | name (id : String)
  | attr (obj : PyExpr) (field : String)
  | call (fn : PyExpr) (args : List PyExpr)
  | boolOp (isAnd : Bool) (values : List PyExpr)
  | binOp (op : String) (lhs rhs : PyExpr)
  | compare (op : String) (lhs rhs : PyExpr)

/-- Statement nodes of the modelled syntax tree.  A function definition
carries its positional parameters `(name, annotation)` (`ast.arguments.args`),
default expressions, return annotation, 1-indexed start and end lines, and
body.  `tryStmt`'s `handlers` holds the body of each `except` handler. -/
inductive PyStmt where
  | functionDef (fname : String) (args : List (String × Option PyExpr))
      (defaults : List PyExpr) (returns : Option PyExpr)
      (lineno endLineno : Nat) (body : List PyStmt)
  | classDef (cname : String) (lineno endLineno : Nat) (body : List PyStmt)
  | exprStmt (value : PyExpr)
  | raiseStmt (exc : Option PyExpr)
  | ifStmt (test : PyExpr) (body orelse : List PyStmt)
  | forStmt (body orelse : List PyStmt)
  | whileStmt (test : PyExpr) (body orelse : List PyStmt)
  | withStmt (body : List PyStmt)
  | tryStmt (body : List PyStmt) (handlers : List (List PyStmt))
      (orelse finalbody : List PyStmt)
  | importStmt (names : List (String × Option String))
  | importFromStmt (module : Option String) (names : List (String × Option String))
  | returnStmt (value : Option PyExpr)
  | passStmt

mutual

/-- Rendering of an expression back to source text; models `ast.unparse`
for the expression fragment modelled here.  The repository's
`get_annotation_str`/`_get_default_str` wrap this in a `try/except` whose
fallback (`str(node)`) is unreachable for well-formed nodes, so the model
is total. -/
def unparse : PyExpr → String
  | .constant (.str s) => "'" ++ s ++ "'"
  | .constant (.int n) => toString n
  | .constant (.bool b) => if b then "True" else "False"
  | .constant .noneConst => "None"
  | .name id => id
  | .attr obj f => unparse obj ++ "." ++ f
  | .call fn args => unparse fn ++ "(" ++ unparseList args ++ ")"
  | .boolOp isAnd vals =>
      "(" ++ unparseSep (if isAnd then " and " else " or ") vals ++ ")"
  | .binOp op l r => unparse l ++ " " ++ op ++ " " ++ unparse r
  | .compare op l r => unparse l ++ " " ++ op ++ " " ++ unparse r

/-- Comma-separated rendering of an argument list. -/
def unparseList : List PyExpr → String
  | [] => ""
  | [e] => unparse e
  | e :: e' :: es => unparse e ++ ", " ++ unparseList (e' :: es)

/-- Separator-joined rendering of boolean-operator operands. -/
def unparseSep (sep : String) : List PyExpr → String
  | [] => ""
  | [e] => unparse e
  | e :: e' :: es => unparse e ++ sep ++ unparseSep sep (e' :: es)

end

/-- `get_annotation_str`: convert an annotation node to a string, `None` for `None`. -/
def get_annotation_str : Option PyExpr → Option String
  | none => none
  | some e => some (unparse e)

/-- `_get_default_str`: convert a default-value node to a string, `None` for `None`. -/
def _get_default_str : Option PyExpr → Option String
  | none => none
  | some e => some (unparse e)

mutual

/-- Complexity increments contributed by an expression subtree under
`ast.walk`: every boolean `and`/`or` with `N` operands adds `N - 1`
(the `isinstance(child.op, (ast.And, ast.Or))` guard in the source is
always satisfied for a `BoolOp`). -/
def exprCx : PyExpr → Nat
  | .constant _ => 0
  | .name _ => 0
  | .attr obj _ => exprCx obj
  | .call fn args => exprCx fn + exprListCx args
  | .boolOp _ vals => (vals.length - 1) + exprListCx vals
  | .binOp _ l r => exprCx l + exprCx r
  | .compare _ l r => exprCx l + exprCx r

/-- Complexity increments of a list of expressions. -/
def exprListCx : List PyExpr → Nat
  | [] => 0
  | e :: es => exprCx e + exprListCx es

end

/-- Complexity increments of an optional expression. -/
def optExprCx : Option PyExpr → Nat
  | none => 0
  | some e => exprCx e

/-- Complexity increments hiding in parameter annotations. -/
def argsAnnCx : List (String × Option PyExpr) → Nat
  | [] => 0
  | a :: as_ => optExprCx a.2 + argsAnnCx as_

mutual

/-- Complexity increments contributed by one statement and all of its
descendants, mirroring the `ast.walk` loop of `_simple_complexity`:
`If`/`For`/`While`/`With` add 1, every `except` handler adds 1, and the
walk is unscoped, so nested function and class bodies are included. -/
def stmtCx : PyStmt → Nat
  | .functionDef _ args defaults returns _ _ body =>
      argsAnnCx args + exprListCx defaults + optExprCx returns + stmtListCx body
  | .classDef _ _ _ body => stmtListCx body
  | .exprStmt v => exprCx v
  | .raiseStmt exc => optExprCx exc
  | .ifStmt t b o => 1 + exprCx t + stmtListCx b + stmtListCx o
  | .forStmt b o => 1 + stmtListCx b + stmtListCx o
  | .whileStmt t b o => 1 + exprCx t + stmtListCx b + stmtListCx o
  | .withStmt b => 1 + stmtListCx b
  | .tryStmt b hs o f => stmtListCx b + handlerListCx hs + stmtListCx o + stmtListCx f
  | .importStmt _ => 0
  | .importFromStmt _ _ => 0
  | .returnStmt v => optExprCx v
  | .passStmt => 0

/-- Complexity increments of a statement list. -/
def stmtListCx : List PyStmt → Nat
  | [] => 0
  | s :: ss => stmtCx s + stmtListCx ss

/-- Complexity increments of `except` handlers: 1 per handler plus its body. -/
def handlerListCx : List (List PyStmt) → Nat
  | [] => 0
  | h :: hs => 1 + stmtListCx h + handlerListCx hs

end

/-- `_simple_complexity`: start at 1 and add the increments found by
walking the whole function subtree. -/
def _simple_complexity (node : PyStmt) : Nat :=
  1 + stmtCx node

/-- Nesting contribution of an expression subtree in `_max_nesting_depth`:
no expression node is in the branching set `(If, For, While, With, Try)`,
so the source's recursion over an expression returns the incoming
`current` unchanged; the model short-circuits that recursion. -/
def nestExprDepth (cur : Nat) (_ : PyExpr) : Nat :=
  cur

mutual

/-- The `depth` helper of `_max_nesting_depth` on one statement.  A
branching node (`If`/`For`/`While`/`With`/`Try`) visits its children at
`cur + 1`; every other node visits its children at `cur`.  The explicit
`cur + 1` operand for `if`/`for`/`while`/`with` stands for the mandatory
expression children (test, target/iter, context items), which the source
also visits and which return their incoming depth. -/
def nestStmt (cur : Nat) : PyStmt → Nat
  | .functionDef _ _ _ _ _ _ body => max cur (nestList cur body)
  | .classDef _ _ _ body => max cur (nestList cur body)
  | .exprStmt _ => cur
  | .raiseStmt _ => cur
  | .ifStmt _ b o => max cur (max (cur + 1) (max (nestList (cur + 1) b) (nestList (cur + 1) o)))
  | .forStmt b o => max cur (max (cur + 1) (max (nestList (cur + 1) b) (nestList (cur + 1) o)))
  | .whileStmt _ b o => max cur (max (cur + 1) (max (nestList (cur + 1) b) (nestList (cur + 1) o)))
  | .withStmt b => max cur (max (cur + 1) (nestList (cur + 1) b))
  | .tryStmt b hs o f =>
      max cur (max (cur + 1)
        (max (nestList (cur + 1) b)
          (max (handlersNest (cur + 1) hs)
            (max (nestList (cur + 1) o) (nestList (cur + 1) f)))))
  | .importStmt _ => cur
  | .importFromStmt _ _ => cur
  | .returnStmt _ => cur
  | .passStmt => cur

/-- Maximum of `depth` over a statement list, starting from `cur`. -/
def nestList (cur : Nat) : List PyStmt → Nat
  | [] => cur
  | s :: ss => max (nestStmt cur s) (nestList cur ss)

/-- Maximum of `depth` over `except` handlers: a handler node is not in
the branching set, so its body stays at the handlers' incoming depth. -/
def handlersNest (cur : Nat) : List (List PyStmt) → Nat
  | [] => cur
  | h :: hs => max (nestList cur h) (handlersNest cur hs)

end

/-- `_max_nesting_depth`: run the `depth` recursion from 0 on the
function node (the node itself is not branching, so its body starts at 0). -/
def _max_nesting_depth (node : PyStmt) : Nat :=
  nestStmt 0 node

/-- Exception names contributed by one `raise` expression, following the
source's case analysis exactly: `raise Foo(...)` yields the callee name,
`raise mod.Foo(...)` the attribute name, `raise exc` the bare identifier;
any other raised expression (including a bare attribute) contributes
nothing. -/
def raisedName : PyExpr → List String
  | .call (.name id) _ => [id]
  | .call (.attr _ f) _ => [f]
  | .call _ _ => []
  | .name id => [id]
  | _ => []

mutual

/-- Raised-exception names found by walking one statement and its
descendants.  `ast.walk` also visits expression subtrees, but a `raise`
is a statement and cannot occur inside an expression, so only statement
children are traversed. -/
def stmtRaises : PyStmt → List String
  | .functionDef _ _ _ _ _ _ body => stmtListRaises body
  | .classDef _ _ _ body => stmtListRaises body
  | .exprStmt _ => []
  | .raiseStmt none => []
  | .raiseStmt (some e) => raisedName e
  | .ifStmt _ b o => stmtListRaises b ++ stmtListRaises o
  | .forStmt b o => stmtListRaises b ++ stmtListRaises o
  | .whileStmt _ b o => stmtListRaises b ++ stmtListRaises o
  | .withStmt b => stmtListRaises b
  | .tryStmt b hs o f =>
      stmtListRaises b ++ handlerListRaises hs ++ stmtListRaises o ++ stmtListRaises f
  | .importStmt _ => []
  | .importFromStmt _ _ => []
  | .returnStmt _ => []
  | .passStmt => []

/-- Raised-exception names of a statement list. -/
def stmtListRaises : List PyStmt → List String
  | [] => []
  | s :: ss => stmtRaises s ++ stmtListRaises ss

/-- Raised-exception names of `except` handler bodies. -/
def handlerListRaises : List (List PyStmt) → List String
  | [] => []
  | h :: hs => stmtListRaises h ++ handlerListRaises hs

end

/-- `_extract_raises`: the walk collects names into a set, and the result
is `sorted(list(raises))` — modelled as deduplication followed by a sort
under the lexicographic order on strings (extensionally the same list as
Python's `sorted` on the set's elements). -/
def _extract_raises (node : PyStmt) : List String :=
  List.insertionSort (· ≤ ·) (stmtRaises node).dedup

/-- `_has_docstring` applied to a node body: the first statement is a
bare string-literal expression. -/
def _has_docstring (body : List PyStmt) : Bool :=
  match body with
  | .exprStmt (.constant (.str _)) :: _ => true
  | _ => false

/-- Column-tracking core of Python `str.expandtabs()` (tab size 8; a
newline or carriage return resets the column). -/
def expandtabsGo : List Char → Nat → List Char
  | [], _ => []
  | c :: cs, col =>
    if c = '\t' then
      List.replicate (8 - col % 8) ' ' ++ expandtabsGo cs (col + (8 - col % 8))
    else if c = '\n' || c = '\r' then
      c :: expandtabsGo cs 0
    else
      c :: expandtabsGo cs (col + 1)

/-- Python `s.expandtabs()`. -/
def pyExpandtabs (s : String) : String :=
  ⟨expandtabsGo s.data 0⟩

/-- Indentation margins of the tail lines, as computed by `inspect.cleandoc`:
for every non-blank line after the first, the length of its leading
whitespace. -/
def cleandocMargins (lines : List (List Char)) : List Nat :=
  (lines.drop 1).filterMap (fun line =>
    let content := line.dropWhile isPySpaceChar
    if content.length ≠ 0 then some (line.length - content.length) else none)

/-- Removal of trailing empty lines (`while lines and not lines[-1]: lines.pop()`). -/
def dropTrailingEmpties (lines : List (List Char)) : List (List Char) :=
  (lines.reverse.dropWhile List.isEmpty).reverse

/-- Model of `inspect.cleandoc` (CPython): expand tabs, split into lines,
strip the first line's leading whitespace, remove the minimum common
margin from the remaining lines, then drop trailing and leading blank
lines and re-join with newlines. -/
def cleandoc (doc : String) : String :=
  let lines := splitOnChar '\n' (pyExpandtabs doc).data
  let lines :=
    match lines with
    | [] => []
    | l0 :: rest =>
      match (cleandocMargins (l0 :: rest)).min? with
      | some m => l0.dropWhile isPySpaceChar :: rest.map (List.drop m)
      | none => l0.dropWhile isPySpaceChar :: rest
  let lines := dropTrailingEmpties lines
  let lines := lines.dropWhile List.isEmpty
  ⟨List.intercalate ['\n'] lines⟩

/-- `_get_docstring` applied to a node body: when the first statement is a
bare string literal, clean it with `inspect.cleandoc` and re-wrap it in
triple double quotes (with a newline after the opening and before the
closing delimiter), else `None`. -/
def _get_docstring (body : List PyStmt) : Option String :=
  match body with
  | .exprStmt (.constant (.str s)) :: _ =>
      some ("\"\"\"\n" ++ cleandoc s ++ "\n\"\"\"")
  | _ => none

/-- ArgRecord: one positional parameter of a function record.  The source
key `annotation` is modelled by the field `annot`. -/
structure ArgRecord where
  name : String
  annot : Option String
  deriving DecidableEq

/-- DefaultRecord: one entry of a function record's `defaults` list.
`arg_index` is a Python `int`, hence modelled as `Int` (it can go
negative when positional-only parameters carry defaults). -/
structure DefaultRecord where
  arg_index : Int
  value : Option String
  deriving DecidableEq

/-- FunctionRecord: the dictionary `parse_functions` builds per top-level
function. -/
structure FunctionRecord where
  name : String
  args : List ArgRecord
  defaults : List DefaultRecord
  returns : Option String
  start_line : Nat
  end_line : Nat
  complexity : Nat
  nesting_depth : Nat
  has_docstring : Bool
  docstring : Option String
  raises : List String
  deriving DecidableEq

/-- MethodRecord: the dictionary `parse_classes` builds per method; it has
no `defaults` and no `nesting_depth` key. -/
structure MethodRecord where
  name : String
  args : List ArgRecord
  returns : Option String
  start_line : Nat
  end_line : Nat
  complexity : Nat
  has_docstring : Bool
  docstring : Option String
  raises : List String
  deriving DecidableEq

/-- ClassRecord: the dictionary `parse_classes` builds per top-level class. -/
structure ClassRecord where
  name : String
  methods : List MethodRecord
  start_line : Nat
  end_line : Nat
  has_docstring : Bool
  docstring : Option String
  deriving DecidableEq

/-- FileRecord: the dictionary `parse_file` returns per file. -/
structure FileRecord where
  file_path : String
  imports : List String
  parsing_errors : List String
  functions : List FunctionRecord
  classes : List ClassRecord
  deriving DecidableEq

/-- `parse_functions`: build a FunctionRecord for every direct top-level
function definition of the module body (methods inside classes are not
visited).  `defaults` maps the i-th default to `num_args - num_defaults + i`. -/
def parse_functions (body : List PyStmt) : List FunctionRecord :=
  body.filterMap (fun item =>
    match item with
    | .functionDef fname fargs fdefaults freturns lineno endLineno fbody =>
      let args := fargs.map (fun a => ArgRecord.mk a.1 (get_annotation_str a.2))
      let num_defaults := fdefaults.length
      let num_args := fargs.length
      let defaults := fdefaults.enum.map (fun d =>
        DefaultRecord.mk ((num_args : Int) - (num_defaults : Int) + (d.1 : Int))
          (_get_default_str (some d.2)))
      some
        { name := fname
          args := args
          defaults := defaults
          returns := get_annotation_str freturns
          start_line := lineno
          end_line := endLineno
          complexity := _simple_complexity item
          nesting_depth := _max_nesting_depth item
          has_docstring := _has_docstring fbody
          docstring := _get_docstring fbody
          raises := _extract_raises item }
    | _ => none)

/-- Methods of one class body: every direct function-definition member,
converted like a top-level function minus `defaults`/`nesting_depth`. -/
def parse_methods (cbody : List PyStmt) : List MethodRecord :=
  cbody.filterMap (fun m =>
    match m with
    | .functionDef mname margs _ mreturns lineno endLineno mbody =>
      some
        { name := mname
          args := margs.map (fun a => ArgRecord.mk a.1 (get_annotation_str a.2))
          returns := get_annotation_str mreturns
          start_line := lineno
          end_line := endLineno
          complexity := _simple_complexity m
          has_docstring := _has_docstring mbody
          docstring := _get_docstring mbody
          raises := _extract_raises m }
    | _ => none)

/-- `parse_classes`: build a ClassRecord for every direct top-level class
definition.  `end_line` is `item.end_lineno or item.lineno`, with the
integer falsiness of `or` made explicit. -/
def parse_classes (body : List PyStmt) : List ClassRecord :=
  body.filterMap (fun item =>
    match item with
    | .classDef cname lineno endLineno cbody =>
      some
        { name := cname
          methods := parse_methods cbody
          start_line := lineno
          end_line := if endLineno = 0 then lineno else endLineno
          has_docstring := _has_docstring cbody
          docstring := _get_docstring cbody }
    | _ => none)

/-- Rendering of one `import` alias. -/
def renderAlias (n : String × Option String) : String :=
  match n.2 with
  | some a => "import " ++ n.1 ++ " as " ++ a
  | none => "import " ++ n.1

/-- Rendering of one `from M import X` alias; `module = item.module or ""`. -/
def renderFromAlias (m : Option String) (n : String × Option String) : String :=
  let module := m.getD ""
  match n.2 with
  | some a => "from " ++ module ++ " import " ++ n.1 ++ " as " ++ a
  | none => "from " ++ module ++ " import " ++ n.1

mutual

/-- Import strings found in one statement and its descendants.
`parse_imports` walks the whole tree with `ast.walk` (breadth-first);
the model collects depth-first, which yields the same multiset of
rendered strings — no property below depends on the traversal order. -/
def stmtImports : PyStmt → List String
  | .functionDef _ _ _ _ _ _ body => stmtListImports body
  | .classDef _ _ _ body => stmtListImports body
  | .exprStmt _ => []
  | .raiseStmt _ => []
  | .ifStmt _ b o => stmtListImports b ++ stmtListImports o
  | .forStmt b o => stmtListImports b ++ stmtListImports o
  | .whileStmt _ b o => stmtListImports b ++ stmtListImports o
  | .withStmt b => stmtListImports b
  | .tryStmt b hs o f =>
      stmtListImports b ++ handlerListImports hs ++ stmtListImports o ++ stmtListImports f
  | .importStmt names => names.map renderAlias
  | .importFromStmt m names => names.map (renderFromAlias m)
  | .returnStmt _ => []
  | .passStmt => []

/-- Import strings of a statement list. -/
def stmtListImports : List PyStmt → List String
  | [] => []
  | s :: ss => stmtImports s ++ stmtListImports ss

/-- Import strings of `except` handler bodies. -/
def handlerListImports : List (List PyStmt) → List String
  | [] => []
  | h :: hs => stmtListImports h ++ handlerListImports hs

end

/-- `parse_imports` over a module body. -/
def parse_imports (body : List PyStmt) : List String :=
  stmtListImports body

/-- Outcome of the external read-and-`ast.parse` step of `parse_file`:
either a module body, or a `SyntaxError` carrying `e.lineno` and `e.msg`,
or any other exception carrying `str(e)`. -/
inductive ParseOutcome where
  | ok (body : List PyStmt)
  | synError (lineno : Nat) (msg : String)
  | otherError (msg : String)

/-- `parse_file`: on success extract functions, classes and imports; on a
`SyntaxError` record exactly one `parsing_errors` entry
`"SyntaxError at line <n>: <msg>"` and keep all collections empty; on any
other exception record `"Error: <msg>"` likewise.  The function is total:
no exception escapes the per-file boundary. -/
def parse_file (path : String) (outcome : ParseOutcome) : FileRecord :=
  match outcome with
  | .ok body =>
      { file_path := path
        imports := parse_imports body
        parsing_errors := []
        functions := parse_functions body
        classes := parse_classes body }
  | .synError n msg =>
      { file_path := path
        imports := []
        parsing_errors := ["SyntaxError at line " ++ toString n ++ ": " ++ msg]
        functions := []
        classes := [] }
  | .otherError msg =>
      { file_path := path
        imports := []
        parsing_errors := ["Error: " ++ msg]
        functions := []
        classes := [] }

/-- Violation: one entry of `self.violations`. -/
structure Violation where
  code : String
  line : Nat
  message : String
  file : String
  deriving DecidableEq

/-- FuncView: the keys `_validate_function` actually reads from a
function or method dictionary (`name`, `start_line`, `has_docstring`,
`docstring`). -/
structure FuncView where
  name : String
  start_line : Nat
  has_docstring : Bool
  docstring : Option String
  deriving DecidableEq

/-- View of a top-level FunctionRecord as the keys the validator reads. -/
def FunctionRecord.view (f : FunctionRecord) : FuncView :=
  { name := f.name
    start_line := f.start_line
    has_docstring := f.has_docstring
    docstring := f.docstring }

/-- View of a MethodRecord as the keys the validator reads. -/
def MethodRecord.view (m : MethodRecord) : FuncView :=
  { name := m.name
    start_line := m.start_line
    has_docstring := m.has_docstring
    docstring := m.docstring }

/-- Qualified location string:
`f"{class_name}.{func_name}" if class_name else func_name`
(the empty class name is falsy). -/
def viewLocation (class_name : Option String) (nm : String) : String :=
  match class_name with
  | some c => if c = "" then nm else c ++ "." ++ nm
  | none => nm

/-- `_check_blank_lines_after_docstring` (D202): locate the docstring's
end line from `start_line` plus the docstring's own line count, and flag a
blank line that is followed by further non-blank, non-`def`/`class` code. -/
def _check_blank_lines_after_docstring (source_lines : List String) (start_line : Nat)
    (docstring : String) (func_name : String) (class_name : Option String)
    (file_path : String) : List Violation :=
  if source_lines.isEmpty || start_line < 1 then []
  else
    let func_def_idx := start_line - 1
    let docstring_start_idx := func_def_idx + 1
    let docstring_line_count := (pySplit docstring '\n').length
    let docstring_end_idx := docstring_start_idx + docstring_line_count - 1
    if docstring_end_idx + 1 < source_lines.length then
      let line_after_doc := pyStrip (source_lines.getD (docstring_end_idx + 1) "")
      if line_after_doc = "" then
        if docstring_end_idx + 2 < source_lines.length then
          let next_next_line := pyStrip (source_lines.getD (docstring_end_idx + 2) "")
          if next_next_line ≠ "" && !(pyStartsWith next_next_line "def ")
              && !(pyStartsWith next_next_line "class ") then
            [{ code := "D202"
               line := docstring_end_idx + 2
               message := "D202: No blank lines allowed after function docstring in "
                 ++ viewLocation class_name func_name ++ " (found 1)"
               file := file_path }]
          else []
        else []
      else []
    else []

/-- `_validate_docstring_format`: the D300/D200/D209/D205/D400/D402/D202
checks, in the order the source appends them.  `has_func_obj` is the
truthiness of the `func_obj` argument (a non-empty dictionary when a
function record is being validated, `None` for classes). -/
def _validate_docstring_format (docstring : String) (start_line : Nat) (file_path : String)
    (source_lines : List String) (nm : String) (is_function : Bool)
    (class_name : Option String) (has_func_obj : Bool) : List Violation :=
  if docstring = "" then []
  else
    let doc_content := pyStrip (pyStripChars ['\''] (pyStripChars ['"'] docstring))
    let lines := pySplit doc_content '\n'
    let d300 :=
      if !(pyStartsWith (pyStrip docstring) "\"\"\"") then
        [{ code := "D300"
           line := start_line
           message := "D300: Use triple double quotes for docstrings in "
             ++ viewLocation class_name nm
           file := file_path }]
      else []
    let is_one_liner := (lines.filter (fun l => pyStrip l ≠ "")).length = 1
    let oneOrMulti :=
      if is_one_liner then
        if pyContainsChar (pyStrip doc_content) '\n' then
          [{ code := "D200"
             line := start_line
             message := "D200: One-line docstring should fit on one line in "
               ++ viewLocation class_name nm
             file := file_path }]
        else []
      else
        (if !(pyEndsWith (pyRstrip docstring) "\n\"\"\"")
            && !(pyEndsWith (pyRstrip docstring) "\n'''") then
          [{ code := "D209"
             line := start_line
             message := "D209: Multi-line docstring closing quotes should be on separate line in "
               ++ viewLocation class_name nm
             file := file_path }]
        else [])
        ++
        (if lines.length > 2 then
          (if pyStrip (lines.getD 1 "") ≠ "" then
            [{ code := "D205"
               line := start_line + 1
               message := "D205: 1 blank line required between summary and description in "
                 ++ viewLocation class_name nm
               file := file_path }]
          else [])
        else [])
    let first_line := if lines.isEmpty then "" else pyStrip (lines.headD "")
    let d400 :=
      if first_line ≠ ""
          && !(pyEndsWith first_line "." || pyEndsWith first_line "!"
               || pyEndsWith first_line "?") then
        [{ code := "D400"
           line := start_line
           message := "D400: First line should end with a period in "
             ++ viewLocation class_name nm
           file := file_path }]
      else []
    let d402 :=
      if is_function && first_line ≠ "" && pyContainsChar first_line '('
          && pyContainsChar first_line ')' then
        [{ code := "D402"
           line := start_line
           message := "D402: First line should not be the function's signature in "
             ++ viewLocation class_name nm
           file := file_path }]
      else []
    let d202 :=
      if !source_lines.isEmpty && has_func_obj && is_function then
        _check_blank_lines_after_docstring source_lines start_line docstring nm
          class_name file_path
      else []
    d300 ++ oneOrMulti ++ d400 ++ d402 ++ d202

/-- `_validate_function`: skip private (single-leading-underscore,
non-dunder) names entirely; emit D102/D103 and stop when the docstring is
missing; otherwise run the D201 raw-line check and, when the record's
docstring string is truthy, the docstring-format checks. -/
def _validate_function (func : FuncView) (file_path : String) (source_lines : List String)
    (is_method : Bool) (class_name : Option String) : List Violation :=
  let func_name := func.name
  let start_line := func.start_line
  if pyStartsWith func_name "_" && !(pyStartsWith func_name "__") then []
  else if !func.has_docstring then
    let code := if is_method then "D102" else "D103"
    [{ code := code
       line := start_line
       message := code ++ ": Missing docstring in public "
         ++ (if is_method then "method" else "function") ++ " "
         ++ viewLocation class_name func_name
       file := file_path }]
  else
    let d201 :=
      if !source_lines.isEmpty && start_line > 0 && start_line < source_lines.length then
        let func_def_line := start_line - 1
        if func_def_line + 1 < source_lines.length then
          let next_line := pyStrip (source_lines.getD (func_def_line + 1) "")
          if next_line = "" && func_def_line + 2 < source_lines.length then
            let following_line := pyStrip (source_lines.getD (func_def_line + 2) "")
            if pyStartsWith following_line "\"\"\"" || pyStartsWith following_line "'''" then
              [{ code := "D201"
                 line := func_def_line + 2
                 message := "D201: No blank lines allowed before function docstring in "
                   ++ viewLocation class_name func_name
                 file := file_path }]
            else []
          else []
        else []
      else []
    let fmt :=
      if optStrTruthy func.docstring then
        _validate_docstring_format (func.docstring.getD "") start_line file_path
          source_lines func_name true class_name true
      else []
    d201 ++ fmt

/-- `_validate_class`: skip every class whose name starts with an
underscore (dunder classes included); otherwise emit D101 when the
docstring is missing, else format-check the class docstring, and in
either case validate every method with the class name attached. -/
def _validate_class (cls : ClassRecord) (file_path : String)
    (source_lines : List String) : List Violation :=
  if pyStartsWith cls.name "_" then []
  else
    let docPart :=
      if !cls.has_docstring then
        [{ code := "D101"
           line := cls.start_line
           message := "D101: Missing docstring in public class " ++ cls.name
           file := file_path }]
      else
        if optStrTruthy cls.docstring then
          _validate_docstring_format (cls.docstring.getD "") cls.start_line file_path
            source_lines cls.name false none false
        else []
    docPart
      ++ (cls.methods.map (fun m =>
            _validate_function (MethodRecord.view m) file_path source_lines true
              (some cls.name))).flatten

/-- `validate_file`: split the available source text into lines (an
unavailable or empty source gives no lines, which silently disables the
raw-line checks), then validate every function and every class of the
record, concatenating violations in order. -/
def validate_file (file_data : FileRecord) (source_code : Option String) : List Violation :=
  let source_lines :=
    match source_code with
    | some s => if s = "" then [] else pySplit s '\n'
    | none => []
  (file_data.functions.map (fun f =>
      _validate_function (FunctionRecord.view f) file_data.file_path source_lines
        false none)).flatten
    ++ (file_data.classes.map (fun c =>
          _validate_class c file_data.file_path source_lines)).flatten

/-- Round-half-to-even on a rational, the rounding rule of Python's
`round` (modelling the float intermediate as an exact rational). -/
def roundHalfEven (q : ℚ) : ℤ :=
  let f : ℤ := q.floor
  let frac : ℚ := q - (f : ℚ)
  if frac < 1 / 2 then f
  else if 1 / 2 < frac then f + 1
  else if f % 2 = 0 then f else f + 1

/-- Python `round(q, 2)`. -/
def round2 (q : ℚ) : ℚ :=
  (roundHalfEven (q * 100) : ℚ) / 100

/-- Public (no leading underscore) top-level functions of one record list. -/
def publicFuncs (fs : List FunctionRecord) : List FunctionRecord :=
  fs.filter (fun f => !(pyStartsWith f.name "_"))

/-- Public (no leading underscore) methods of one method list. -/
def publicMethods (ms : List MethodRecord) : List MethodRecord :=
  ms.filter (fun m => !(pyStartsWith m.name "_"))

/-- Public (no leading underscore) classes of one class list. -/
def publicClasses (cs : List ClassRecord) : List ClassRecord :=
  cs.filter (fun c => !(pyStartsWith c.name "_"))

/-- Per-file contribution to `total_functions` in `validate_project`:
public top-level functions plus public methods of every class. -/
def pubFnCount (fd : FileRecord) : Nat :=
  (publicFuncs fd.functions).length
    + (fd.classes.map (fun c => (publicMethods c.methods).length)).sum

/-- Per-file contribution to `total_classes` in `validate_project`. -/
def pubClsCount (fd : FileRecord) : Nat :=
  (publicClasses fd.classes).length

/-- Per-file contribution to `compliant_functions` in `validate_project`. -/
def docFnCount (fd : FileRecord) : Nat :=
  ((publicFuncs fd.functions).filter (fun f => f.has_docstring)).length
    + (fd.classes.map (fun c =>
        ((publicMethods c.methods).filter (fun m => m.has_docstring)).length)).sum

/-- Per-file contribution to `compliant_classes` in `validate_project`. -/
def docClsCount (fd : FileRecord) : Nat :=
  ((publicClasses fd.classes).filter (fun c => c.has_docstring)).length

/-- One iteration of `validate_project`'s metric loop over the accumulator
`(total_functions, total_classes, compliant_functions, compliant_classes)`. -/
def projectCountsStep (acc : Nat × Nat × Nat × Nat) (fd : FileRecord) :
    Nat × Nat × Nat × Nat :=
  (acc.1 + pubFnCount fd, acc.2.1 + pubClsCount fd,
   acc.2.2.1 + docFnCount fd, acc.2.2.2 + docClsCount fd)

/-- ValidationReport: the dictionary `validate_project` returns. -/
structure ValidationReport where
  total_violations : Nat
  violations : List Violation
  total_items : Nat
  compliant_items : Nat
  compliance_percentage : ℚ
  total_functions : Nat
  total_classes : Nat
  compliant_functions : Nat
  compliant_classes : Nat
  deriving DecidableEq

/-- `validate_project`: validate every record (the per-file source text
comes from re-reading `file_path`, modelled by the external `readSource`
map, `none` when the read raises), concatenate the violations, and
compute the compliance metrics.  `compliance_rate` is
`compliant/total*100` when the denominator is positive and the integer 0
otherwise, and the report stores `round(compliance_rate, 2)`. -/
def validate_project (scan_results : List FileRecord)
    (readSource : String → Option String) : ValidationReport :=
  let all_violations :=
    (scan_results.map (fun fd => validate_file fd (readSource fd.file_path))).flatten
  let counts := scan_results.foldl projectCountsStep (0, 0, 0, 0)
  let total_functions := counts.1
  let total_classes := counts.2.1
  let compliant_functions := counts.2.2.1
  let compliant_classes := counts.2.2.2
  let total_items := total_functions + total_classes
  let compliant_items := compliant_functions + compliant_classes
  let compliance_rate : ℚ :=
    if total_items > 0 then (compliant_items : ℚ) / (total_items : ℚ) * 100 else 0
  { total_violations := all_violations.length
    violations := all_violations
    total_items := total_items
    compliant_items := compliant_items
    compliance_percentage := round2 compliance_rate
    total_functions := total_functions
    total_classes := total_classes
    compliant_functions := compliant_functions
    compliant_classes := compliant_classes }

/-- FileStat: one entry of the coverage report's `files` list. -/
structure FileStat where
  file_path : String
  total_functions : Nat
  parsed_functions : Nat
  parsing_errors : Nat
  coverage_percentage : ℚ
  deriving DecidableEq

/-- CoverageReport: the dictionary `compute_coverage` returns. -/
structure CoverageReport where
  total_functions : Nat
  successfully_parsed : Nat
  total_parsing_errors : Nat
  overall_coverage_percentage : ℚ
  files : List FileStat
  deriving DecidableEq

/-- Per-file `file_total`: top-level functions plus methods of all classes. -/
def covFileTotal (r : FileRecord) : Nat :=
  r.functions.length + (r.classes.map (fun c => c.methods.length)).sum

/-- Per-file `file_parsed`: 0 when the file has any parsing error, else
the file's total. -/
def covFileParsed (r : FileRecord) : Nat :=
  if r.parsing_errors.isEmpty then covFileTotal r else 0

/-- Per-file contribution to `total_parsing_errors` (added only in the
parsing-error branch of the loop; it is 0 in the other branch anyway). -/
def covFileErrs (r : FileRecord) : Nat :=
  if r.parsing_errors.isEmpty then 0 else r.parsing_errors.length

/-- The per-file dictionary appended to `file_stats`:
`coverage_percentage` is `parsed/total*100` rounded to 2 decimals, or 0.0
when the file total is 0. -/
def covFileStat (r : FileRecord) : FileStat :=
  { file_path := r.file_path
    total_functions := covFileTotal r
    parsed_functions := covFileParsed r
    parsing_errors := r.parsing_errors.length
    coverage_percentage :=
      round2 (if covFileTotal r > 0 then
        (covFileParsed r : ℚ) / (covFileTotal r : ℚ) * 100 else 0) }

/-- One iteration of `compute_coverage`'s loop over the accumulator
`(total_functions, successfully_parsed, total_parsing_errors, file_stats)`. -/
def coverageStep (acc : Nat × Nat × Nat × List FileStat) (r : FileRecord) :
    Nat × Nat × Nat × List FileStat :=
  (acc.1 + covFileTotal r, acc.2.1 + covFileParsed r,
   acc.2.2.1 + covFileErrs r, acc.2.2.2 ++ [covFileStat r])

/-- `compute_coverage`: fold the per-file statistics and attach the
overall coverage percentage (`successfully_parsed/total_functions*100`
rounded to 2 decimals, 0.0 when there are no functions). -/
def compute_coverage (per_file_results : List FileRecord) : CoverageReport :=
  let acc := per_file_results.foldl coverageStep (0, 0, 0, [])
  let total_functions := acc.1
  let successfully_parsed := acc.2.1
  { total_functions := total_functions
    successfully_parsed := successfully_parsed
    total_parsing_errors := acc.2.2.1
    overall_coverage_percentage :=
      round2 (if total_functions > 0 then
        (successfully_parsed : ℚ) / (total_functions : ℚ) * 100 else 0)
    files := acc.2.2.2 }

/-- Spec-side totals for the compliance formula: public top-level
functions plus public methods, summed over all records. -/
def claimTotalFunctions (rs : List FileRecord) : Nat :=
  (rs.map pubFnCount).sum

/-- Spec-side totals for the compliance formula: public classes. -/
def claimTotalClasses (rs : List FileRecord) : Nat :=
  (rs.map pubClsCount).sum

/-- Spec-side compliant count: documented public functions and methods
plus documented public classes. -/
def claimCompliant (rs : List FileRecord) : Nat :=
  (rs.map docFnCount).sum + (rs.map docClsCount).sum

/-- Docstrings as the extractor re-wraps them: absent, or opened by
`"""` plus newline and closed by newline plus `"""`. -/
def TripleQuoted (d : Option String) : Prop :=
  d = none ∨ ∃ mid, d = some ("\"\"\"\n" ++ mid ++ "\n\"\"\"")

/-- Module body of the scenario file `def add(a: int, b: int) -> int: return a+b`. -/
def addBody : List PyStmt :=
  [ .functionDef "add" [("a", some (.name "int")), ("b", some (.name "int"))] []
      (some (.name "int")) 1 1
      [ .returnStmt (some (.binOp "+" (.name "a") (.name "b"))) ] ]

/-- Source text of the `add` scenario file. -/
def addSource : String :=
  "def add(a: int, b: int) -> int: return a+b"

/-- A placeholder FunctionRecord used only as the default of `List.headD`
on demonstration inputs whose parse output is known to be non-empty. -/
def zeroFunctionRecord : FunctionRecord :=
  { name := "", args := [], defaults := [], returns := none, start_line := 0,
    end_line := 0, complexity := 0, nesting_depth := 0, has_docstring := false,
    docstring := none, raises := [] }

/-- Module body of `def f(a, b=1, c=2): pass`, a demonstration input for
the defaults index arithmetic. -/
def defaultsDemoBody : List PyStmt :=
  [ .functionDef "f" [("a", none), ("b", none), ("c", none)]
      [.constant (.int 1), .constant (.int 2)] none 1 1 [.passStmt] ]

/-- The record extracted from `defaultsDemoBody`. -/
def defaultsDemoFn : FunctionRecord :=
  (parse_functions defaultsDemoBody).headD zeroFunctionRecord

/-- Module body of a function that raises `ValueError` twice and
`TypeError` once, a demonstration input for the raises invariant. -/
def raisesDemoBody : List PyStmt :=
  [ .functionDef "g" [("x", none)] [] none 1 4
      [ .raiseStmt (some (.call (.name "ValueError") [.constant (.str "x")])),
        .raiseStmt (some (.call (.name "TypeError") [])),
        .raiseStmt (some (.name "ValueError")) ] ]

/-- The record extracted from `raisesDemoBody`. -/
def raisesDemoFn : FunctionRecord :=
  (parse_functions raisesDemoBody).headD zeroFunctionRecord

/-- A dunder-named class without a docstring. -/
def dunderClassRec : ClassRecord :=
  { name := "__Meta__", methods := [], start_line := 1, end_line := 2,
    has_docstring := false, docstring := none }

/-- A private (single-underscore) class with no docstring. -/
def privateClassRec : ClassRecord :=
  { name := "_Hidden", methods := [], start_line := 3, end_line := 4,
    has_docstring := false, docstring := none }

/-- A private (single-underscore, non-dunder) undocumented function view. -/
def privateFnView : FuncView :=
  { name := "_helper", start_line := 7, has_docstring := false, docstring := none }

/-- An undocumented dunder method view. -/
def dunderFnView : FuncView :=
  { name := "__call__", start_line := 9, has_docstring := false, docstring := none }

/-- An undocumented public function view. -/
def demoUndocFn : FuncView :=
  { name := "run", start_line := 5, has_docstring := false, docstring := none }

/-- The FileRecord `parse_file` produces for a file whose parse raises
`SyntaxError` at line 3. -/
def errDemoFile : FileRecord :=
  parse_file "bad.py" (.synError 3 "invalid syntax")

/-- The docstring the extractor produces for a one-line docstring: one
non-blank content line between the quote lines, newlines inside the
delimiters. -/
def splitOneLinerDoc : String :=
  "\"\"\"\nReturn the sum.\n\"\"\""

theorem ratFloor_eq_floor (q : ℚ) : q.floor = ⌊q⌋ := by
  rw [Rat.floor_def', Rat.floor_def]

theorem round2_zero : round2 0 = 0 := by
  simp [round2, roundHalfEven, ratFloor_eq_floor]

theorem coverage_foldl (rs : List FileRecord) (a b c : Nat) (st : List FileStat) :
    rs.foldl coverageStep (a, b, c, st) =
      (a + (rs.map covFileTotal).sum, b + (rs.map covFileParsed).sum,
       c + (rs.map covFileErrs).sum, st ++ rs.map covFileStat) := by
  induction rs generalizing a b c st with
  | nil => simp
  | cons r rs ih => simp [coverageStep, ih, Nat.add_assoc]

theorem project_counts_foldl (rs : List FileRecord) (a b c d : Nat) :
    rs.foldl projectCountsStep (a, b, c, d) =
      (a + (rs.map pubFnCount).sum, b + (rs.map pubClsCount).sum,
       c + (rs.map docFnCount).sum, d + (rs.map docClsCount).sum) := by
  induction rs generalizing a b c d with
  | nil => simp
  | cons r rs ih => simp [projectCountsStep, ih, Nat.add_assoc]

theorem extract_raises_sorted_nodup (s : PyStmt) :
    List.Sorted (· ≤ ·) (_extract_raises s) ∧ (_extract_raises s).Nodup := by
  constructor
  · exact List.sorted_insertionSort _ _
  · exact ((List.perm_insertionSort _ _).nodup_iff).mpr (List.nodup_dedup _)

theorem data_wrapped (mid : String) :
    ("\"\"\"\n" ++ mid ++ "\n\"\"\"").data
      = '"' :: '"' :: '"' :: '\n' :: (mid.data ++ ['\n', '"', '"', '"']) := by
  simp [String.data_append]

theorem pyStrip_wrapped (mid : String) :
    (pyStrip ("\"\"\"\n" ++ mid ++ "\n\"\"\"")).data
      = '"' :: '"' :: '"' :: '\n' :: (mid.data ++ ['\n', '"', '"', '"']) := by
  simp [pyStrip, stripByChars, data_wrapped, lstripByChars, rstripByChars,
        List.dropWhile_cons, isPySpaceChar, List.reverse_append]

theorem startsWith_wrapped (mid : String) :
    pyStartsWith (pyStrip ("\"\"\"\n" ++ mid ++ "\n\"\"\"")) "\"\"\"" = true := by
  simp [pyStartsWith, pyStrip_wrapped, List.isPrefixOf]

theorem check_blank_code (sl : List String) (st : Nat) (d fn : String)
    (cn : Option String) (fp : String) :
    ∀ v ∈ _check_blank_lines_after_docstring sl st d fn cn fp, v.code = "D202" := by
  intro v hv
  unfold _check_blank_lines_after_docstring at hv
  repeat' split at hv
  all_goals simp_all

theorem vdf_no_d300 (d : String) (st : Nat) (fp : String) (sl : List String)
    (nm : String) (isf : Bool) (cn : Option String) (hfo : Bool)
    (h : pyStartsWith (pyStrip d) "\"\"\"" = true) :
    ∀ v ∈ _validate_docstring_format d st fp sl nm isf cn hfo, v.code ≠ "D300" := by
  intro v hv
  unfold _validate_docstring_format at hv
  by_cases hd : d = ""
  · rw [if_pos hd] at hv
    exact absurd hv (List.not_mem_nil v)
  · rw [if_neg hd] at hv
    simp only [h, Bool.not_true, Bool.false_eq_true, if_false, ite_false,
      List.nil_append, List.mem_append] at hv
    rcases hv with (((hv | hv) | hv) | hv)
    · repeat' split at hv
      all_goals
        first
          | exact absurd hv (List.not_mem_nil v)
          | (obtain rfl := List.mem_singleton.mp hv; simp)
          | (rcases List.mem_append.mp hv with hv2 | hv2 <;>
              first
                | exact absurd hv2 (List.not_mem_nil v)
                | (obtain rfl := List.mem_singleton.mp hv2; simp))
    · repeat' split at hv
      all_goals
        first
          | exact absurd hv (List.not_mem_nil v)
          | (obtain rfl := List.mem_singleton.mp hv; simp)
    · repeat' split at hv
      all_goals
        first
          | exact absurd hv (List.not_mem_nil v)
          | (obtain rfl := List.mem_singleton.mp hv; simp)
    · split at hv
      · have hc := check_blank_code _ _ _ _ _ _ v hv
        simp [hc]
      · exact absurd hv (List.not_mem_nil v)

theorem gds_shape (body : List PyStmt) : TripleQuoted (_get_docstring body) := by
  unfold TripleQuoted _get_docstring
  split
  · exact Or.inr ⟨_, rfl⟩
  · exact Or.inl rfl

theorem vf_no_d300 (func : FuncView) (fp : String) (sl : List String)
    (im : Bool) (cn : Option String) (hq : TripleQuoted func.docstring) :
    ∀ v ∈ _validate_function func fp sl im cn, v.code ≠ "D300" := by
  intro v hv
  simp only [_validate_function] at hv
  split at hv
  · exact absurd hv (List.not_mem_nil v)
  · split at hv
    · obtain rfl := List.mem_singleton.mp hv
      cases im <;> simp
    · rcases List.mem_append.mp hv with hv2 | hv2
      · repeat' split at hv2
        all_goals
          first
            | exact absurd hv2 (List.not_mem_nil v)
            | (obtain rfl := List.mem_singleton.mp hv2; simp)
      · split at hv2
        case isTrue htr =>
          rcases hq with hnone | ⟨mid, hmid⟩
          · rw [hnone] at htr
            simp [optStrTruthy] at htr
          · rw [hmid] at hv2
            simp only [Option.getD_some] at hv2
            exact vdf_no_d300 _ _ _ _ _ _ _ _ (startsWith_wrapped mid) v hv2
        case isFalse => exact absurd hv2 (List.not_mem_nil v)

theorem vc_no_d300 (cls : ClassRecord) (fp : String) (sl : List String)
    (hq : TripleQuoted cls.docstring)
    (hm : ∀ m ∈ cls.methods, TripleQuoted m.docstring) :
    ∀ v ∈ _validate_class cls fp sl, v.code ≠ "D300" := by
  intro v hv
  simp only [_validate_class] at hv
  split at hv
  · exact absurd hv (List.not_mem_nil v)
  · rcases List.mem_append.mp hv with hv2 | hv2
    · split at hv2
      · obtain rfl := List.mem_singleton.mp hv2
        simp
      · split at hv2
        case isTrue htr =>
          rcases hq with hnone | ⟨mid, hmid⟩
          · rw [hnone] at htr
            simp [optStrTruthy] at htr
          · rw [hmid] at hv2
            simp only [Option.getD_some] at hv2
            exact vdf_no_d300 _ _ _ _ _ _ _ _ (startsWith_wrapped mid) v hv2
        case isFalse => exact absurd hv2 (List.not_mem_nil v)
    · rw [List.mem_flatten] at hv2
      rcases hv2 with ⟨l, hl, hvl⟩
      rw [List.mem_map] at hl
      rcases hl with ⟨m, hmm, rfl⟩
      exact vf_no_d300 _ _ _ _ _ (hm m hmm) v hvl

theorem parse_functions_quoted (body : List PyStmt) :
    ∀ f ∈ parse_functions body, TripleQuoted f.docstring := by
  intro f hf
  rcases List.mem_filterMap.mp hf with ⟨item, hmem, heq⟩
  cases item <;> simp only [Option.some.injEq, reduceCtorEq] at heq
  subst heq
  exact gds_shape _

theorem parse_methods_quoted (cbody : List PyStmt) :
    ∀ m ∈ parse_methods cbody, TripleQuoted m.docstring := by
  intro m hm
  rcases List.mem_filterMap.mp hm with ⟨item, hmem, heq⟩
  cases item <;> simp only [Option.some.injEq, reduceCtorEq] at heq
  subst heq
  exact gds_shape _

theorem parse_classes_quoted (body : List PyStmt) :
    ∀ c ∈ parse_classes body, TripleQuoted c.docstring
      ∧ ∀ m ∈ c.methods, TripleQuoted m.docstring := by
  intro c hc
  rcases List.mem_filterMap.mp hc with ⟨item, hmem, heq⟩
  cases item <;> simp only [Option.some.injEq, reduceCtorEq] at heq
  subst heq
  exact ⟨gds_shape _, parse_methods_quoted _⟩

/-- C1: for every input file whose text fails to parse with a syntax
error, `parse_file` returns a FileRecord whose `parsing_errors` is
exactly one entry `"SyntaxError at line <n>: <msg>"` and whose
`functions`, `classes` and `imports` are all empty.  The model of
`parse_file` is a total function, so no exception escapes the per-file
boundary. -/
theorem parse_file_syn_error_spec (path : String) (n : Nat) (msg : String) :
    parse_file path (.synError n msg) =
      { file_path := path
        imports := []
        parsing_errors := ["SyntaxError at line " ++ toString n ++ ": " ++ msg]
        functions := []
        classes := [] } :=
  rfl

/-- C2: the file containing only `def add(a: int, b: int) -> int: return a+b`
parses to a single record with `has_docstring = false`, `complexity = 1`
and `raises = []`, and validating that record yields exactly one
violation, whose code is D103 and whose message names `add`. -/
theorem add_scenario_spec :
    (parse_functions addBody).map (fun f => (f.has_docstring, f.complexity, f.raises))
        = [(false, 1, [])]
    ∧ (validate_file (parse_file "sample.py" (.ok addBody)) (some addSource)).map
        (fun v => (v.code, v.message))
        = [("D103", "D103: Missing docstring in public function add")] := by
  decide

/-- C3: for every extracted top-level function, the i-th default-value
entry carries `arg_index = len(args) - len(defaults) + i`, so defaults
always align to the trailing parameters of the `args` sequence. -/
theorem defaults_arg_index_spec (body : List PyStmt) (f : FunctionRecord)
    (hf : f ∈ parse_functions body) (i : Nat) (hi : i < f.defaults.length) :
    (f.defaults.get ⟨i, hi⟩).arg_index
      = (f.args.length : Int) - (f.defaults.length : Int) + (i : Int) := by
  rcases List.mem_filterMap.mp hf with ⟨item, hmem, heq⟩
  cases item <;> simp only [Option.some.injEq, reduceCtorEq] at heq
  subst heq
  simp [List.get_eq_getElem, List.getElem_map, List.getElem_enum]

/-- Witness for C3 on `def f(a, b=1, c=2)`: the 0-th default maps to
`arg_index = 3 - 2 + 0 = 1`. -/
theorem defaults_arg_index_witness :
    defaultsDemoFn ∈ parse_functions defaultsDemoBody
      ∧ (defaultsDemoFn.defaults.get ⟨0, by decide⟩).arg_index
          = (defaultsDemoFn.args.length : Int) - (defaultsDemoFn.defaults.length : Int)
            + ((0 : Nat) : Int) :=
  ⟨by decide, defaults_arg_index_spec defaultsDemoBody defaultsDemoFn (by decide) 0 (by decide)⟩

/-- C4 counterexample: a dunder-named class without a docstring is
skipped entirely by `_validate_class` — it receives no D101 violation,
contradicting the claim that double-underscore class names are treated as
public. -/
theorem dunder_class_no_d101_cex :
    pyStartsWith dunderClassRec.name "__" = true
      ∧ dunderClassRec.has_docstring = false
      ∧ _validate_class dunderClassRec "m.py" [] = [] := by
  decide

/-- C4 amended: functions and methods with double-underscore names are
treated as public (an undocumented one receives exactly the
missing-docstring check), and single-leading-underscore non-dunder
functions and methods are skipped entirely; classes, however, are skipped
whenever their name starts with any underscore, dunder names included. -/
theorem underscore_visibility_amended :
    (∀ (cls : ClassRecord) (fp : String) (sl : List String),
        pyStartsWith cls.name "_" = true → _validate_class cls fp sl = [])
    ∧ (∀ (func : FuncView) (fp : String) (sl : List String) (im : Bool)
          (cn : Option String),
        pyStartsWith func.name "_" = true → pyStartsWith func.name "__" = false →
        _validate_function func fp sl im cn = [])
    ∧ (∀ (func : FuncView) (fp : String) (sl : List String) (im : Bool)
          (cn : Option String),
        pyStartsWith func.name "__" = true → func.has_docstring = false →
        (_validate_function func fp sl im cn).map Violation.code
          = [if im then "D102" else "D103"]) := by
  refine ⟨?_, ?_, ?_⟩
  · intro cls fp sl h
    simp [_validate_class, h]
  · intro func fp sl im cn h1 h2
    simp [_validate_function, h1, h2]
  · intro func fp sl im cn h1 h2
    have hskip : (pyStartsWith func.name "_" && !(pyStartsWith func.name "__")) = false := by
      simp [h1]
    simp [_validate_function, hskip, h2]

/-- Witness for C4 amended: the dunder class and private class are
skipped, the private function is skipped, and the undocumented dunder
method receives exactly the D102 check. -/
theorem underscore_visibility_witness :
    _validate_class dunderClassRec "m.py" [] = []
      ∧ _validate_class privateClassRec "m.py" [] = []
      ∧ _validate_function privateFnView "m.py" [] false none = []
      ∧ (_validate_function dunderFnView "m.py" [] true (some "C")).map Violation.code
          = ["D102"] := by
  refine ⟨underscore_visibility_amended.1 dunderClassRec "m.py" [] (by decide),
          underscore_visibility_amended.1 privateClassRec "m.py" [] (by decide),
          underscore_visibility_amended.2.1 privateFnView "m.py" [] false none
            (by decide) (by decide), ?_⟩
  have h := underscore_visibility_amended.2.2 dunderFnView "m.py" [] true (some "C")
    (by decide) (by decide)
  simpa using h

/-- C5: in every CoverageReport, the per-file `parsed_functions` sum
equals `successfully_parsed`, the per-file `total_functions` sum equals
the top-level `total_functions`, and every record with a non-empty
`parsing_errors` list contributes a per-file entry with
`parsed_functions = 0`. -/
theorem coverage_sums_spec (rs : List FileRecord) :
    ((compute_coverage rs).files.map FileStat.parsed_functions).sum
        = (compute_coverage rs).successfully_parsed
    ∧ ((compute_coverage rs).files.map FileStat.total_functions).sum
        = (compute_coverage rs).total_functions
    ∧ ∀ r ∈ rs, r.parsing_errors ≠ [] →
        covFileStat r ∈ (compute_coverage rs).files
          ∧ (covFileStat r).parsed_functions = 0 := by
  refine ⟨?_, ?_, ?_⟩
  · simp only [compute_coverage, coverage_foldl, List.map_map, List.nil_append,
      Nat.zero_add]
    congr 1
  · simp only [compute_coverage, coverage_foldl, List.map_map, List.nil_append,
      Nat.zero_add]
    congr 1
  · intro r hr hne
    refine ⟨?_, ?_⟩
    · simp only [compute_coverage, coverage_foldl, List.nil_append]
      exact List.mem_map_of_mem _ hr
    · simp [covFileStat, covFileParsed, List.isEmpty_iff, hne]

/-- Witness for C5: a record produced from a syntax-error file has a
per-file entry with `parsed_functions = 0`. -/
theorem coverage_sums_witness :
    covFileStat errDemoFile ∈ (compute_coverage [errDemoFile]).files
      ∧ (covFileStat errDemoFile).parsed_functions = 0 :=
  (coverage_sums_spec [errDemoFile]).2.2 errDemoFile (by decide) (by decide)

/-- C6: `validate_project` reports `total_functions` as public top-level
functions plus public methods and `total_classes` as public classes, and
its `compliance_percentage` equals `compliant/(total_functions +
total_classes)*100` rounded to two decimals, 0 when the denominator is 0;
in particular `validate_project []` reports `total_violations = 0` and
`compliance_percentage = 0`. -/
theorem compliance_formula_spec (rs : List FileRecord)
    (readSource : String → Option String) :
    (validate_project rs readSource).total_functions = claimTotalFunctions rs
    ∧ (validate_project rs readSource).total_classes = claimTotalClasses rs
    ∧ (validate_project rs readSource).compliance_percentage =
        (if claimTotalFunctions rs + claimTotalClasses rs = 0 then 0
         else round2 ((claimCompliant rs : ℚ)
           / ((claimTotalFunctions rs + claimTotalClasses rs : Nat) : ℚ) * 100))
    ∧ (validate_project [] readSource).total_violations = 0
    ∧ (validate_project [] readSource).compliance_percentage = 0 := by
  have hfold : rs.foldl projectCountsStep (0, 0, 0, 0) =
      ((rs.map pubFnCount).sum, (rs.map pubClsCount).sum,
       (rs.map docFnCount).sum, (rs.map docClsCount).sum) := by
    simpa using project_counts_foldl rs 0 0 0 0
  refine ⟨?_, ?_, ?_, ?_, ?_⟩
  · simp only [validate_project, hfold, claimTotalFunctions]
  · simp only [validate_project, hfold, claimTotalClasses]
  · simp only [validate_project, hfold, claimTotalFunctions, claimTotalClasses,
      claimCompliant]
    by_cases h : (rs.map pubFnCount).sum + (rs.map pubClsCount).sum = 0
    · simp [h, round2_zero]
    · have h2 : 0 < (rs.map pubFnCount).sum + (rs.map pubClsCount).sum :=
        Nat.pos_of_ne_zero h
      simp only [h2, if_pos, h, if_neg]
      norm_cast
  · simp [validate_project]
  · simp [validate_project, round2_zero]

/-- C7: for every extracted top-level function and every method of every
extracted class, the `raises` list is lexicographically sorted and free
of duplicates. -/
theorem raises_sorted_nodup_spec (body : List PyStmt) :
    (∀ f ∈ parse_functions body, List.Sorted (· ≤ ·) f.raises ∧ f.raises.Nodup)
    ∧ (∀ c ∈ parse_classes body, ∀ m ∈ c.methods,
        List.Sorted (· ≤ ·) m.raises ∧ m.raises.Nodup) := by
  constructor
  · intro f hf
    rcases List.mem_filterMap.mp hf with ⟨item, hmem, heq⟩
    cases item <;> simp only [Option.some.injEq, reduceCtorEq] at heq
    subst heq
    exact extract_raises_sorted_nodup _
  · intro c hc m hm
    rcases List.mem_filterMap.mp hc with ⟨item, hmem, heq⟩
    cases item <;> simp only [Option.some.injEq, reduceCtorEq] at heq
    subst heq
    rcases List.mem_filterMap.mp hm with ⟨mitem, hmmem, hmeq⟩
    cases mitem <;> simp only [Option.some.injEq, reduceCtorEq] at hmeq
    subst hmeq
    exact extract_raises_sorted_nodup _

/-- Witness for C7 on a function raising `ValueError` twice and
`TypeError` once: its `raises` list is sorted and duplicate-free. -/
theorem raises_sorted_nodup_witness :
    List.Sorted (· ≤ ·) raisesDemoFn.raises ∧ raisesDemoFn.raises.Nodup :=
  (raises_sorted_nodup_spec raisesDemoBody).1 raisesDemoFn (List.mem_singleton.mpr rfl)

/-- C8 (code evaluated at the failing input): the extractor-shaped
docstring `"""¶Return the sum.¶"""` has newlines inside its quoted
content and exactly one non-blank content line, yet
`_validate_docstring_format` emits no D200 violation: the check tests for
a newline in content it has already whitespace-stripped, so the
improperly-split-one-liner branch can never fire. -/
theorem d200_dead_branch_eval :
    pyContainsChar (pyStripChars ['\''] (pyStripChars ['"'] splitOneLinerDoc)) '\n' = true
    ∧ ((pySplit (pyStrip (pyStripChars ['\''] (pyStripChars ['"'] splitOneLinerDoc))) '\n').filter
        (fun l => pyStrip l ≠ "")).length = 1
    ∧ (_validate_docstring_format splitOneLinerDoc 1 "sample.py" [] "f" true none true).filter
        (fun v => v.code == "D200") = [] := by
  decide

/-- C9: a public (non-private-named) function or method with
`has_docstring = false` receives exactly the single missing-docstring
violation (D102 for methods, D103 for functions) and no further checks —
in particular no docstring-format violation. -/
theorem missing_docstring_single_spec (func : FuncView) (fp : String)
    (sl : List String) (im : Bool) (cn : Option String)
    (hpub : (pyStartsWith func.name "_" && !(pyStartsWith func.name "__")) = false)
    (hnd : func.has_docstring = false) :
    _validate_function func fp sl im cn =
      [{ code := if im then "D102" else "D103"
         line := func.start_line
         message := (if im then "D102" else "D103") ++ ": Missing docstring in public "
           ++ (if im then "method" else "function") ++ " " ++ viewLocation cn func.name
         file := fp }] := by
  simp [_validate_function, hpub, hnd]

/-- Witness for C9: the undocumented public function `run` receives
exactly one D103 violation. -/
theorem missing_docstring_single_witness :
    _validate_function demoUndocFn "m.py" [] false none
      = [{ code := "D103", line := 5,
           message := "D103: Missing docstring in public function run",
           file := "m.py" }] := by
  have h := missing_docstring_single_spec demoUndocFn "m.py" [] false none
    (by decide) (by decide)
  simpa using h

/-- C10: validating any FileRecord produced by `parse_file` never emits a
D300 violation: the extractor re-wraps every extracted docstring in
triple double quotes, so the validator's triple-double-quote branch is
unreachable on extractor-produced records. -/
theorem no_d300_on_extracted_spec (path : String) (outcome : ParseOutcome)
    (src : Option String) :
    (validate_file (parse_file path outcome) src).filter
      (fun v => v.code == "D300") = [] := by
  rw [List.filter_eq_nil_iff]
  intro v hv
  simp only [beq_iff_eq]
  simp only [validate_file] at hv
  rcases List.mem_append.mp hv with hv | hv
  · rw [List.mem_flatten] at hv
    rcases hv with ⟨l, hl, hvl⟩
    rw [List.mem_map] at hl
    rcases hl with ⟨f, hf, rfl⟩
    refine vf_no_d300 _ _ _ _ _ ?_ v hvl
    have hq : TripleQuoted f.docstring := by
      cases outcome with
      | ok body => exact parse_functions_quoted body f (by simpa [parse_file] using hf)
      | synError n m => simp [parse_file] at hf
      | otherError m => simp [parse_file] at hf
    exact hq
  · rw [List.mem_flatten] at hv
    rcases hv with ⟨l, hl, hvl⟩
    rw [List.mem_map] at hl
    rcases hl with ⟨c, hc, rfl⟩
    have hq : TripleQuoted c.docstring ∧ ∀ m ∈ c.methods, TripleQuoted m.docstring := by
      cases outcome with
      | ok body => exact parse_classes_quoted body c (by simpa [parse_file] using hc)
      | synError n m => simp [parse_file] at hc
      | otherError m => simp [parse_file] at hc
    exact vc_no_d300 _ _ _ hq.1 hq.2 v hvl
